import Mathlib

/-!
Verification of the backend-agnostic workflow orchestration core of the
ai-company repository: the Context Manager, Workflow Manager, Result Cache
and the two execution backends (CrewAI, Claude Code), shallowly embedded
in Lean.  Python dictionaries are modelled as insertion-ordered
association lists with unique keys (`PyDict`), Python's `Any` as the
inductive `PyVal`, raised exceptions as `Except PyExc`, and external
library calls (CrewAI's `kickoff`, `hashlib.md5`) as explicit parameters.
-/

namespace AICompany

/-- Model of a Python value (`Any`): strings, ints, bools, `None`,
lists and string-keyed dicts. -/
inductive PyVal where
  | str (s : String)
  | int (n : Int)
  | bool (b : Bool)
  | none
  | list (xs : List PyVal)
  | dict (entries : List (String × PyVal))

/-- Python truthiness of a value (`bool(v)`). -/
def pyTruthy : PyVal → Bool
  | .str s => !(s == "")
  | .int n => !(n == 0)
  | .bool b => b
  | .none => false
  | .list xs => !xs.isEmpty
  | .dict entries => !entries.isEmpty

mutual
/-- Python `repr` of a value.  (String escaping inside `repr` is not
modelled; no claim depends on it.) -/
def pyRepr : PyVal → String
  | .str s => "\x27" ++ s ++ "\x27"
  | .int n => toString n
  | .bool b => if b then "True" else "False"
  | .none => "None"
  | .list xs => "[" ++ pyReprList xs ++ "]"
  | .dict entries => "\x7b" ++ pyReprEntries entries ++ "\x7d"

/-- Comma-separated `repr`s of list elements. -/
def pyReprList : List PyVal → String
  | [] => ""
  | [v] => pyRepr v
  | v :: rest => pyRepr v ++ ", " ++ pyReprList rest

/-- Comma-separated `repr`s of dict entries. -/
def pyReprEntries : List (String × PyVal) → String
  | [] => ""
  | [(k, v)] => "\x27" ++ k ++ "\x27: " ++ pyRepr v
  | (k, v) :: rest => "\x27" ++ k ++ "\x27: " ++ pyRepr v ++ ", " ++ pyReprEntries rest
end

/-- Python `str` of a value: identical to `repr` except on strings. -/
def pyStr : PyVal → String
  | .str s => s
  | v => pyRepr v

namespace PyDict

variable {K V : Type} [BEq K] [LawfulBEq K]

/-- `d.get(k)` / `d[k]`-style lookup on an insertion-ordered dict. -/
def get? : List (K × V) → K → Option V
  | [], _ => Option.none
  | p :: rest, k => if p.1 == k then some p.2 else get? rest k

/-- `k in d`. -/
def contains : List (K × V) → K → Bool
  | [], _ => false
  | p :: rest, k => p.1 == k || contains rest k

/-- `d[k] = v`: overwrite in place when the key is present (preserving
insertion order, as CPython does), append otherwise. -/
def set (m : List (K × V)) (k : K) (v : V) : List (K × V) :=
  if contains m k then m.map (fun p => if p.1 == k then (k, v) else p)
  else m ++ [(k, v)]

/-- `d.update(extra)`. -/
def update (m extra : List (K × V)) : List (K × V) :=
  extra.foldl (fun acc p => set acc p.1 p.2) m

/-- Removal of a key (used for `Path.unlink` on the cache's file map). -/
def delete (m : List (K × V)) (k : K) : List (K × V) :=
  m.filter (fun p => ¬(p.1 == k))

end PyDict

/-- Per-run state of `ContextManager`
(src/company/orchestration/context_manager.py): the context store
(dict of dicts), the task-result store and the workflow metadata. -/
structure ContextManager where
  context_store : List (String × List (String × PyVal))
  task_results : List (String × PyVal)
  workflow_metadata : List (String × PyVal)

namespace ContextManager

/-- `ContextManager.__init__`: all three stores start empty. -/
def init : ContextManager := ⟨[], [], []⟩

/-- `add_context(task_id, context)`. -/
def add_context (cm : ContextManager) (task_id : String)
    (context : List (String × PyVal)) : ContextManager :=
  { cm with context_store := PyDict.set cm.context_store task_id context }

/-- `get_context(task_id)`: the stored context, or an empty dict. -/
def get_context (cm : ContextManager) (task_id : String) :
    List (String × PyVal) :=
  (PyDict.get? cm.context_store task_id).getD []

/-- `store_result(task_id, result)`. -/
def store_result (cm : ContextManager) (task_id : String) (result : PyVal) :
    ContextManager :=
  { cm with task_results := PyDict.set cm.task_results task_id result }

/-- `get_result(task_id)`. -/
def get_result (cm : ContextManager) (task_id : String) : Option PyVal :=
  PyDict.get? cm.task_results task_id

/-- `has_result(task_id)`. -/
def has_result (cm : ContextManager) (task_id : String) : Bool :=
  PyDict.contains cm.task_results task_id

/-- `build_context_for_task(task_id, dependencies, additional_context)`.
The Python body starts from `self.get_context(task_id).copy()` (`.copy()`
is the identity on immutable maps), injects `output_from_<dep>` for each
dependency whose result is already stored (the indexing
`self.task_results[dep_id]` is guarded by the containment test, so the
`.getD` default below never fires), applies `additional_context` as an
override when truthy, and finally attaches the workflow metadata under
the key `workflow_metadata` when that dict is non-empty. -/
def build_context_for_task (cm : ContextManager) (task_id : String)
    (dependencies : List String)
    (additional_context : List (String × PyVal)) : List (String × PyVal) :=
  let context := cm.get_context task_id
  let context := dependencies.foldl
    (fun ctx dep_id =>
      if PyDict.contains cm.task_results dep_id then
        PyDict.set ctx ("output_from_" ++ dep_id)
          ((PyDict.get? cm.task_results dep_id).getD PyVal.none)
      else ctx)
    context
  let context :=
    if additional_context.isEmpty then context
    else PyDict.update context additional_context
  if cm.workflow_metadata.isEmpty then context
  else PyDict.set context "workflow_metadata" (PyVal.dict cm.workflow_metadata)

/-- The same call in state-passing form: the Python method reads
`self.context_store`, `self.task_results` and `self.workflow_metadata`
but assigns to none of them, so the state passes through unchanged. -/
def build_context_for_task_run (cm : ContextManager) (task_id : String)
    (dependencies : List String)
    (additional_context : List (String × PyVal)) :
    List (String × PyVal) × ContextManager :=
  (cm.build_context_for_task task_id dependencies additional_context, cm)

/-- `set_workflow_metadata(metadata)`. -/
def set_workflow_metadata (cm : ContextManager)
    (metadata : List (String × PyVal)) : ContextManager :=
  { cm with workflow_metadata := metadata }

/-- `get_workflow_metadata()`. -/
def get_workflow_metadata (cm : ContextManager) : List (String × PyVal) :=
  cm.workflow_metadata

/-- `clear()`: empty all three stores. -/
def clear (_cm : ContextManager) : ContextManager := ⟨[], [], []⟩

/-- `get_all_results()` (`.copy()` is the identity here). -/
def get_all_results (cm : ContextManager) : List (String × PyVal) :=
  cm.task_results

end ContextManager

/-- A raised Python exception: its class name (`type(e).__name__`) and
its message (`str(e)`). -/
structure PyExc where
  type_name : String
  msg : String
deriving DecidableEq

/-- `AgentRole` (backends/base.py): unified agent definition. -/
structure AgentRole where
  role : String
  goal : String
  backstory : String
  department : String
  level : String
  can_delegate : Bool
  skills : List String
  tools : Option (List String) := Option.none

/-- `TaskDefinition` (backends/base.py): unified task definition, with
the pydantic defaults `context = {}`, `depends_on = []`,
`task_id = None`. -/
structure TaskDefinition where
  description : String
  agent_role : String
  expected_output : String
  context : List (String × PyVal) := []
  depends_on : List String := []
  task_id : Option String := Option.none

/-- `WorkflowResult` (backends/base.py). -/
structure WorkflowResult where
  success : Bool
  outputs : List (String × PyVal)
  metadata : List (String × PyVal)

/-- `RoleLevel` (models/hierarchy.py). -/
inductive RoleLevel where
  | EXECUTIVE | HEAD | SENIOR | EXPERT | DEVELOPER | ANALYST | JUNIOR
deriving DecidableEq

/-- The string value of a `RoleLevel` enum member. -/
def RoleLevel.value : RoleLevel → String
  | .EXECUTIVE => "executive"
  | .HEAD => "head"
  | .SENIOR => "senior"
  | .EXPERT => "expert"
  | .DEVELOPER => "developer"
  | .ANALYST => "analyst"
  | .JUNIOR => "junior"

/-- `Department` (models/hierarchy.py). -/
inductive Department where
  | EXECUTIVE | MARKETING | OPERATIONS | HUMAN_RESOURCES
  | SOFTWARE_DEVELOPMENT | COMMERCIAL
deriving DecidableEq

/-- The string value of a `Department` enum member. -/
def Department.value : Department → String
  | .EXECUTIVE => "executive"
  | .MARKETING => "marketing"
  | .OPERATIONS => "operations"
  | .HUMAN_RESOURCES => "human_resources"
  | .SOFTWARE_DEVELOPMENT => "software_development"
  | .COMMERCIAL => "commercial"

/-- `Role` (models/hierarchy.py). -/
structure Role where
  title : String
  level : RoleLevel
  department : Department
  reports_to : Option String := Option.none
  responsibilities : List String := []
  skills : List String := []

namespace OrganizationalChart

/-- `OrganizationalChart.get_hierarchy()`: the full static role catalog. -/
def get_hierarchy : List Role := [
  { title := "CEO", level := .EXECUTIVE, department := .EXECUTIVE,
    reports_to := Option.none,
    responsibilities := [
      "Define company vision and strategy",
      "Oversee all departments",
      "Make final decisions on major initiatives",
      "Ensure company goals are met"],
    skills := ["strategic planning", "leadership", "decision making",
      "business development"] },
  { title := "CTO", level := .EXECUTIVE, department := .EXECUTIVE,
    reports_to := some "CEO",
    responsibilities := [
      "Lead technology strategy",
      "Oversee Software Development department",
      "Ensure technical excellence",
      "Drive innovation"],
    skills := ["technical leadership", "architecture", "innovation",
      "team management"] },
  { title := "Head of Marketing", level := .HEAD, department := .MARKETING,
    reports_to := some "CEO",
    responsibilities := [
      "Develop marketing strategy",
      "Lead marketing campaigns",
      "Manage brand reputation",
      "Oversee marketing team"],
    skills := ["marketing strategy", "brand management", "campaign planning",
      "analytics"] },
  { title := "Head of Operations", level := .HEAD, department := .OPERATIONS,
    reports_to := some "CEO",
    responsibilities := [
      "Optimize business processes",
      "Manage operational efficiency",
      "Ensure quality standards",
      "Coordinate cross-department operations"],
    skills := ["process optimization", "project management",
      "quality assurance", "logistics"] },
  { title := "Head of HR", level := .HEAD, department := .HUMAN_RESOURCES,
    reports_to := some "CEO",
    responsibilities := [
      "Manage recruitment and hiring",
      "Develop employee programs",
      "Handle employee relations",
      "Foster company culture"],
    skills := ["recruitment", "employee relations", "training",
      "organizational development"] },
  { title := "Head of Software Development", level := .HEAD,
    department := .SOFTWARE_DEVELOPMENT, reports_to := some "CTO",
    responsibilities := [
      "Lead development teams",
      "Ensure code quality",
      "Plan technical roadmap",
      "Coordinate with other departments"],
    skills := ["software architecture", "team leadership",
      "agile methodology", "code review"] },
  { title := "Head of Commercial", level := .HEAD, department := .COMMERCIAL,
    reports_to := some "CEO",
    responsibilities := [
      "Drive sales strategy",
      "Manage client relationships",
      "Negotiate contracts",
      "Meet revenue targets"],
    skills := ["sales strategy", "negotiation", "client relations",
      "revenue management"] },
  { title := "Marketing Analyst", level := .ANALYST,
    department := .MARKETING, reports_to := some "Head of Marketing",
    responsibilities := [
      "Analyze market trends",
      "Track campaign performance",
      "Provide data-driven insights",
      "Monitor competitor activities"],
    skills := ["data analysis", "market research", "reporting",
      "analytics tools"] },
  { title := "Content Marketing Expert", level := .EXPERT,
    department := .MARKETING, reports_to := some "Head of Marketing",
    responsibilities := [
      "Create marketing content",
      "Develop content strategy",
      "Manage content calendar",
      "Ensure brand consistency"],
    skills := ["content creation", "copywriting", "SEO",
      "content strategy"] },
  { title := "Operations Analyst", level := .ANALYST,
    department := .OPERATIONS, reports_to := some "Head of Operations",
    responsibilities := [
      "Analyze operational metrics",
      "Identify process improvements",
      "Generate operational reports",
      "Track KPIs"],
    skills := ["process analysis", "data analytics", "reporting",
      "efficiency optimization"] },
  { title := "Quality Assurance Expert", level := .EXPERT,
    department := .OPERATIONS, reports_to := some "Head of Operations",
    responsibilities := [
      "Ensure quality standards",
      "Conduct quality audits",
      "Develop QA processes",
      "Train teams on quality practices"],
    skills := ["quality assurance", "testing", "process improvement",
      "documentation"] },
  { title := "Recruitment Specialist", level := .EXPERT,
    department := .HUMAN_RESOURCES, reports_to := some "Head of HR",
    responsibilities := [
      "Source and recruit candidates",
      "Conduct interviews",
      "Manage hiring process",
      "Build talent pipeline"],
    skills := ["recruitment", "interviewing", "talent sourcing",
      "candidate assessment"] },
  { title := "HR Analyst", level := .ANALYST,
    department := .HUMAN_RESOURCES, reports_to := some "Head of HR",
    responsibilities := [
      "Analyze HR metrics",
      "Track employee satisfaction",
      "Prepare HR reports",
      "Monitor retention rates"],
    skills := ["HR analytics", "reporting", "data analysis",
      "employee engagement"] },
  { title := "Senior Software Developer", level := .SENIOR,
    department := .SOFTWARE_DEVELOPMENT,
    reports_to := some "Head of Software Development",
    responsibilities := [
      "Design and develop software",
      "Review code from junior developers",
      "Mentor development team",
      "Ensure best practices"],
    skills := ["software development", "code review", "mentoring",
      "architecture design"] },
  { title := "Software Developer", level := .DEVELOPER,
    department := .SOFTWARE_DEVELOPMENT,
    reports_to := some "Head of Software Development",
    responsibilities := [
      "Write clean, efficient code",
      "Implement features",
      "Fix bugs",
      "Collaborate with team"],
    skills := ["programming", "problem solving", "testing",
      "version control"] },
  { title := "QA Analyst", level := .ANALYST,
    department := .SOFTWARE_DEVELOPMENT,
    reports_to := some "Head of Software Development",
    responsibilities := [
      "Test software quality",
      "Write test cases",
      "Report bugs",
      "Ensure product quality"],
    skills := ["testing", "bug tracking", "test automation",
      "quality metrics"] },
  { title := "Sales Analyst", level := .ANALYST, department := .COMMERCIAL,
    reports_to := some "Head of Commercial",
    responsibilities := [
      "Analyze sales data",
      "Track sales performance",
      "Forecast revenue",
      "Generate sales reports"],
    skills := ["sales analytics", "forecasting", "reporting",
      "CRM tools"] },
  { title := "Business Development Expert", level := .EXPERT,
    department := .COMMERCIAL, reports_to := some "Head of Commercial",
    responsibilities := [
      "Identify business opportunities",
      "Develop partnerships",
      "Expand market presence",
      "Drive revenue growth"],
    skills := ["business development", "networking", "negotiation",
      "market analysis"] }]

/-- `OrganizationalChart.get_roles_by_department(department)`. -/
def get_roles_by_department (department : Department) : List Role :=
  get_hierarchy.filter (fun role => role.department == department)

/-- `OrganizationalChart.get_roles_by_level(level)`. -/
def get_roles_by_level (level : RoleLevel) : List Role :=
  get_hierarchy.filter (fun role => role.level == level)

end OrganizationalChart

/-- JSON string escaping as used by `json.dumps` (backslash and quote;
`ensure_ascii` and control-character escaping are not modelled — no
claim depends on them). -/
def jsonEscape (s : String) : String :=
  s.data.foldl
    (fun acc c =>
      if c = '\\' then acc ++ "\\\\"
      else if c = '"' then acc ++ "\\\""
      else acc ++ String.singleton c) ""

/-- A JSON string literal. -/
def jsonString (s : String) : String := "\"" ++ jsonEscape s ++ "\""

/-- The key-sorted order `json.dumps(..., sort_keys=True)` serializes a
dict in. -/
def sortParams (params : List (String × String)) : List (String × String) :=
  List.insertionSort (fun a b => a.1 ≤ b.1) params

/-- Serialization of the `params` dict by
`json.dumps(..., sort_keys=True)`: entries sorted by key, with the
default `", "` / `": "` separators. -/
def dumpsParams (params : List (String × String)) : String :=
  "\x7b" ++ String.intercalate ", "
    ((sortParams params).map (fun p => jsonString p.1 ++ ": " ++ jsonString p.2))
    ++ "\x7d"

/-- The `key_string` of `WorkflowCache._generate_cache_key`:
`json.dumps({'department': ..., 'backend': ..., 'params': ...},
sort_keys=True)`.  With keys sorted, the three top-level entries appear
in the order `backend`, `department`, `params`. -/
def keyString (department backend : String)
    (params : List (String × String)) : String :=
  "\x7b" ++ jsonString "backend" ++ ": " ++ jsonString backend ++ ", "
    ++ jsonString "department" ++ ": " ++ jsonString department ++ ", "
    ++ jsonString "params" ++ ": " ++ dumpsParams params ++ "\x7d"

/-- `WorkflowCache._generate_cache_key` (utils/cache.py).
`hashlib.md5(...).hexdigest()` is an external library primitive, passed
in as the function `md5_hex`. -/
def generate_cache_key (md5_hex : String → String)
    (department backend : String) (params : List (String × String)) :
    String :=
  md5_hex (keyString department backend params)

/-- The parsed content of one persisted cache record, as written by
`WorkflowCache.set` (`cached_at` is modelled as the write timestamp). -/
structure CacheData where
  department : String
  backend : String
  params : List (String × String)
  result : PyVal
  cached_at : Int
  ttl_seconds : Int

/-- One file in the cache directory: its parsed JSON content (`none`
models an unreadable/corrupt file) and its modification time. -/
structure CacheFile where
  data : Option CacheData
  mtime : Int

/-- The configuration of a `WorkflowCache` instance (utils/cache.py). -/
structure WorkflowCache where
  cache_dir : String
  ttl_seconds : Int
  enabled : Bool

namespace WorkflowCache

/-- `WorkflowCache._get_cache_file_path`. -/
def get_cache_file_path (c : WorkflowCache) (cache_key : String) : String :=
  c.cache_dir ++ "/" ++ cache_key ++ ".json"

/-- `WorkflowCache._is_cache_valid`: the file exists and
`now - st_mtime < self.ttl_seconds` — the age is compared against the
TTL currently configured on the instance, not against the
`ttl_seconds` recorded inside the entry. -/
def is_cache_valid (c : WorkflowCache) (files : List (String × CacheFile))
    (cache_file : String) (now : Int) : Bool :=
  match PyDict.get? files cache_file with
  | Option.none => false
  | some f => now - f.mtime < c.ttl_seconds

/-- `WorkflowCache.get`: returns the cached result (plus the possibly
self-healed file map).  A disabled cache or an invalid entry misses; a
valid-by-mtime but unreadable entry is deleted and misses. -/
def get (md5_hex : String → String) (c : WorkflowCache)
    (files : List (String × CacheFile)) (department backend : String)
    (params : List (String × String)) (now : Int) :
    Option PyVal × List (String × CacheFile) :=
  if !c.enabled then (Option.none, files)
  else
    let cache_key := generate_cache_key md5_hex department backend params
    let cache_file := c.get_cache_file_path cache_key
    if !is_cache_valid c files cache_file now then (Option.none, files)
    else
      match PyDict.get? files cache_file with
      | some f =>
        match f.data with
        | some d => (some d.result, files)
        | Option.none => (Option.none, PyDict.delete files cache_file)
      | Option.none => (Option.none, files)

/-- `WorkflowCache.set`: persist the record (including the instance's
current `ttl_seconds`) under the deterministic key; a no-op when the
cache is disabled. -/
def set (md5_hex : String → String) (c : WorkflowCache)
    (files : List (String × CacheFile)) (department backend : String)
    (params : List (String × String)) (result : PyVal) (now : Int) :
    List (String × CacheFile) :=
  if !c.enabled then files
  else
    let cache_key := generate_cache_key md5_hex department backend params
    let cache_file := c.get_cache_file_path cache_key
    let cache_data : CacheData :=
      { department := department, backend := backend, params := params,
        result := result, cached_at := now, ttl_seconds := c.ttl_seconds }
    PyDict.set files cache_file { data := some cache_data, mtime := now }

end WorkflowCache

/-- The persistent per-backend data of `ClaudeCodeBackend`
(backends/claude_code_backend.py) kept in `_agent_definitions`. -/
structure ClaudeAgentInfo where
  file : String
  can_delegate : Bool
  department : String
  tools : List String

/-- The mutable attributes of a `ClaudeCodeBackend` instance.  The
subagent `.md` files written to disk are not modelled: no claim depends
on their content. -/
structure ClaudeState where
  config : List (String × PyVal)
  subagents_dir : String
  agent_definitions : List (String × ClaudeAgentInfo)

/-- A task dict as returned by `ClaudeCodeBackend.create_task`. -/
structure ClaudeTask where
  description : String
  agent_role : String
  expected_output : String
  context : List (String × PyVal)
  depends_on : List String
  task_id : Option String

namespace ClaudeCodeBackend

/-- `ClaudeCodeBackend.__init__`. -/
def init : ClaudeState :=
  { config := [], subagents_dir := ".claude/agents", agent_definitions := [] }

/-- `ClaudeCodeBackend.initialize(config)` (the `os.makedirs` call is a
filesystem effect outside the model).  A non-string `subagents_dir`
config value is coerced through `str` here. -/
def initialize_backend (config : List (String × PyVal)) : ClaudeState :=
  { config := config,
    subagents_dir :=
      match PyDict.get? config "subagents_dir" with
      | some v => pyStr v
      | Option.none => ".claude/agents",
    agent_definitions := [] }

/-- The `role_mappings` table of `_role_to_filename`. -/
def role_mappings : List (String × String) := [
  ("chief executive officer (ceo)", "ceo"),
  ("chief technology officer (cto)", "cto"),
  ("head of marketing", "head_of_marketing"),
  ("head of operations", "head_of_operations"),
  ("head of human resources", "head_of_hr"),
  ("head of hr", "head_of_hr"),
  ("head of software development", "head_of_software_development"),
  ("head of commercial", "head_of_commercial"),
  ("marketing analyst", "marketing_analyst"),
  ("content marketing expert", "content_marketing_expert"),
  ("operations analyst", "operations_analyst"),
  ("quality assurance expert", "qa_expert"),
  ("recruitment specialist", "recruitment_specialist"),
  ("hr analyst", "hr_analyst"),
  ("senior software developer", "senior_developer"),
  ("software developer", "software_developer"),
  ("qa analyst", "qa_analyst"),
  ("sales analyst", "sales_analyst"),
  ("business development expert", "business_development_expert")]

/-- `ClaudeCodeBackend._role_to_filename`. -/
def role_to_filename (role : String) : String :=
  let role_lower := role.toLower
  let filename :=
    (PyDict.get? role_mappings role_lower).getD
      (role_lower.replace " " "_")
  filename ++ ".md"

/-- `ClaudeCodeBackend._determine_tools`.  Python's `list(set(tools))`
deduplicates with unspecified iteration order; the model keeps first
occurrences. -/
def determine_tools (agent_def : AgentRole) : List String :=
  let tools := ["Read", "Glob", "Grep"]
  let dept := agent_def.department.toLower
  let tools := tools ++
    (if dept == "software_development" then ["Bash", "Edit", "Write"]
     else if dept == "marketing" then ["WebSearch", "WebFetch", "Write"]
     else if dept == "operations" then ["Bash"]
     else if dept == "human_resources" then ["WebSearch"]
     else if dept == "commercial" then ["WebSearch", "WebFetch"]
     else if dept == "executive" then ["WebSearch", "WebFetch"]
     else [])
  let tools := if agent_def.can_delegate then tools ++ ["Task"] else tools
  tools.eraseDups

/-- `ClaudeCodeBackend.create_agent`: writes the subagent file (not
modelled), caches the agent definition, and returns the role name as the
agent handle. -/
def create_agent (st : ClaudeState) (agent_def : AgentRole) :
    String × ClaudeState :=
  let filename := role_to_filename agent_def.role
  let filepath := st.subagents_dir ++ "/" ++ filename
  let tools := determine_tools agent_def
  let info : ClaudeAgentInfo :=
    { file := filepath, can_delegate := agent_def.can_delegate,
      department := agent_def.department, tools := tools }
  (agent_def.role,
    { st with agent_definitions :=
        PyDict.set st.agent_definitions agent_def.role info })

/-- `ClaudeCodeBackend.create_task`: unconditionally packages the
definition into a task dict — it never consults the created agents and
never fails. -/
def create_task (task_def : TaskDefinition) : ClaudeTask :=
  { description := task_def.description, agent_role := task_def.agent_role,
    expected_output := task_def.expected_output, context := task_def.context,
    depends_on := task_def.depends_on, task_id := task_def.task_id }

/-- `ClaudeCodeBackend._create_workflow_instruction`. -/
def create_workflow_instruction (st : ClaudeState) (task : ClaudeTask)
    (context : List (String × PyVal)) : String :=
  let agent_role := task.agent_role
  let description := task.description
  let instruction :=
    "\n[Claude Code Subagent Workflow]\nAgent: @"
      ++ ((role_to_filename agent_role).replace ".md" "")
      ++ "\nTask: " ++ description
      ++ "\nExpected Output: " ++ task.expected_output ++ "\n"
  let instruction :=
    if context.isEmpty then instruction
    else context.foldl
      (fun ins p => ins ++ "- " ++ p.1 ++ ": " ++ pyStr p.2 ++ "\n")
      (instruction ++ "\nContext:\n")
  instruction
    ++ "\nTo execute this workflow in Claude Code, use:\n> @"
    ++ ((role_to_filename agent_role).replace ".md" "")
    ++ ", " ++ description
    ++ "\n\nThe subagent file has been created at: "
    ++ st.subagents_dir ++ "/" ++ role_to_filename agent_role ++ "\n"

/-- The loop body state of `_execute_sequential`: the enumeration index,
the `task_outputs` dict and the `results` dict.  A task dict built by
`create_task` always contains the key `task_id`, so
`task.get('task_id', f"task_{i}")` returns the stored value — possibly
`None`, which then serves as the `task_outputs` dict key — and the
`f"task_{i}"` default never applies; the index is still threaded to
mirror `enumerate`. -/
def execute_sequential_aux (st : ClaudeState) :
    List ClaudeTask → Nat → List (Option String × PyVal) →
      List (String × PyVal) → List (String × PyVal)
  | [], _, _, results => results
  | task :: rest, i, task_outputs, results =>
    let task_id : Option String := task.task_id
    let context := task.context
    let context := task.depends_on.foldl
      (fun ctx dep_id =>
        if PyDict.contains task_outputs (some dep_id) then
          PyDict.set ctx ("previous_output_" ++ dep_id)
            ((PyDict.get? task_outputs (some dep_id)).getD PyVal.none)
        else ctx)
      context
    let result := create_workflow_instruction st task context
    execute_sequential_aux st rest (i + 1)
      (PyDict.set task_outputs task_id (PyVal.str result))
      (PyDict.set results task.agent_role (PyVal.str result))

/-- `ClaudeCodeBackend._execute_sequential` (the `task_outputs` argument
starts as the empty dict passed in by `execute_workflow`). -/
def execute_sequential (st : ClaudeState) (tasks : List ClaudeTask) :
    List (String × PyVal) :=
  execute_sequential_aux st tasks 0 [] []

/-- `ClaudeCodeBackend._execute_parallel`: filters the tasks whose
`depends_on` list is falsy (empty) and executes only those; tasks with
dependencies are never executed on this path. -/
def execute_parallel (st : ClaudeState) (tasks : List ClaudeTask) :
    List (String × PyVal) :=
  let independent_tasks := tasks.filter (fun t => t.depends_on.isEmpty)
  independent_tasks.foldl
    (fun results task =>
      PyDict.set results task.agent_role
        (PyVal.str (create_workflow_instruction st task task.context)))
    []

/-- `ClaudeCodeBackend.supports_parallel_execution`:
`self._config.get('parallel_execution', True)`, used for its
truthiness. -/
def supports_parallel_execution (st : ClaudeState) : Bool :=
  pyTruthy ((PyDict.get? st.config "parallel_execution").getD (PyVal.bool true))

/-- `ClaudeCodeBackend.execute_workflow`: runs the parallel path only
when it was requested and the config allows it, and reports the
`process_type` argument — the requested mode — in the metadata. -/
def execute_workflow (st : ClaudeState) (agents : List String)
    (tasks : List ClaudeTask) (process_type : String) : WorkflowResult :=
  let results :=
    if process_type == "parallel" && supports_parallel_execution st then
      execute_parallel st tasks
    else execute_sequential st tasks
  { success := true,
    outputs := results,
    metadata := [
      ("backend", PyVal.str "claude_code"),
      ("agents_count", PyVal.int (agents.length : Int)),
      ("tasks_count", PyVal.int (tasks.length : Int)),
      ("process", PyVal.str process_type),
      ("note", PyVal.str
        "Claude Code backend - subagents defined in .claude/agents/")] }

/-- `ClaudeCodeBackend.cleanup`. -/
def cleanup (st : ClaudeState) : ClaudeState :=
  { st with agent_definitions := [] }

end ClaudeCodeBackend

/-- A CrewAI `Agent` as constructed by `CrewAIBackend.create_agent`
(only the constructor arguments the backend passes). -/
structure CrewAgent where
  role : String
  goal : String
  backstory : String
  verbose : PyVal
  allow_delegation : Bool
  max_iter : Nat

/-- A CrewAI `Task` as constructed by `CrewAIBackend.create_task`. -/
structure CrewTask where
  description : String
  agent : CrewAgent
  expected_output : String

/-- The mutable attributes of a `CrewAIBackend` instance
(backends/crewai_backend.py). -/
structure CrewAIState where
  agents_cache : List (String × CrewAgent)
  config : List (String × PyVal)

namespace CrewAIBackend

/-- `CrewAIBackend.__init__`. -/
def init : CrewAIState := ⟨[], []⟩

/-- `CrewAIBackend.initialize(config)`: store the config and clear the
agent cache. -/
def initialize_backend (_st : CrewAIState) (config : List (String × PyVal)) :
    CrewAIState :=
  { agents_cache := [], config := config }

/-- `CrewAIBackend.create_agent`: build the CrewAI agent and cache it
under its role title. -/
def create_agent (st : CrewAIState) (agent_def : AgentRole) :
    CrewAgent × CrewAIState :=
  let agent : CrewAgent :=
    { role := agent_def.role, goal := agent_def.goal,
      backstory := agent_def.backstory,
      verbose := (PyDict.get? st.config "verbose").getD (PyVal.bool true),
      allow_delegation := agent_def.can_delegate,
      max_iter := if agent_def.can_delegate then 5 else 3 }
  (agent,
    { st with agents_cache :=
        PyDict.set st.agents_cache agent_def.role agent })

/-- `CrewAIBackend.create_task`: raises `ValueError` when no agent was
created for the task's role.  (`if not agent:` fires exactly on the
`None` miss — CrewAI `Agent` objects are truthy.) -/
def create_task (st : CrewAIState) (task_def : TaskDefinition) :
    Except PyExc CrewTask :=
  match PyDict.get? st.agents_cache task_def.agent_role with
  | Option.none =>
    Except.error
      { type_name := "ValueError",
        msg := "Agent \x27" ++ task_def.agent_role
          ++ "\x27 not found. Create agent before creating tasks." }
  | some agent =>
    Except.ok
      { description := task_def.description, agent := agent,
        expected_output := task_def.expected_output }

/-- `CrewAIBackend.execute_workflow`.  The `Process` mapping and the
`Crew(...)` construction are pure data; `crew.kickoff()` is the external
CrewAI call, whose outcome is the parameter `kick`.  The `try` block
wraps the kickoff: an exception becomes a `success=False` result with
the message under the `error` output key and the exception class name
under the `error_type` metadata key — it is never re-raised. -/
def execute_workflow (agents : List CrewAgent) (tasks : List CrewTask)
    (process_type : String) (kick : Except PyExc PyVal) : WorkflowResult :=
  match kick with
  | Except.ok result =>
    { success := true,
      outputs := [("result", result)],
      metadata := [
        ("backend", PyVal.str "crewai"),
        ("agents_count", PyVal.int (agents.length : Int)),
        ("tasks_count", PyVal.int (tasks.length : Int)),
        ("process", PyVal.str process_type)] }
  | Except.error e =>
    { success := false,
      outputs := [("error", PyVal.str e.msg)],
      metadata := [
        ("backend", PyVal.str "crewai"),
        ("agents_count", PyVal.int (agents.length : Int)),
        ("tasks_count", PyVal.int (tasks.length : Int)),
        ("process", PyVal.str process_type),
        ("error_type", PyVal.str e.type_name)] }

/-- `CrewAIBackend.supports_parallel_execution`. -/
def supports_parallel_execution : Bool := false

/-- `CrewAIBackend.cleanup`. -/
def cleanup (st : CrewAIState) : CrewAIState :=
  { st with agents_cache := [] }

end CrewAIBackend

/-- A pluggable execution backend as seen by the `WorkflowManager`
(`BaseBackend` in backends/base.py), with backend-local state `S`, agent
handles `A` and task handles `T`; every operation may raise.  (On a
raising call the backend-local state is not tracked further — no claim
examines backend state after a failure.) -/
structure BackendModel (S A T : Type) where
  create_agent : S → AgentRole → Except PyExc (A × S)
  create_task : S → TaskDefinition → Except PyExc (T × S)
  execute_workflow :
    S → List A → List T → String → Except PyExc (WorkflowResult × S)
  supports_parallel_execution : S → Bool

namespace WorkflowManager

variable {S A T : Type}

/-- The `level_descriptions` table of
`WorkflowManager._generate_backstory`. -/
def level_descriptions : List (String × String) := [
  ("executive", "senior leadership"),
  ("head", "department leadership"),
  ("senior", "senior-level expertise"),
  ("expert", "specialized expertise"),
  ("developer", "software development"),
  ("analyst", "analytical expertise")]

/-- `WorkflowManager._generate_backstory` (the triple-quoted f-string,
including its source indentation). -/
def generate_backstory (role : Role) : String :=
  let level_desc :=
    (PyDict.get? level_descriptions role.level.value).getD
      "professional expertise"
  let skills_str :=
    if role.skills.length ≥ 3 then String.intercalate ", " (role.skills.take 3)
    else String.intercalate ", " role.skills
  "You are the " ++ role.title ++ " with " ++ level_desc ++ " in "
    ++ role.department.value ++ ".\n        Your expertise includes: "
    ++ skills_str ++ ".\n        Your key responsibilities: "
    ++ (if role.responsibilities.isEmpty then "supporting the organization"
        else String.intercalate ", " (role.responsibilities.take 2))
    ++ ".\n        You report to "
    ++ (match role.reports_to with
        | some s => if s == "" then "the board" else s
        | Option.none => "the board")
    ++ " and are committed to excellence."

/-- `WorkflowManager._role_to_agent_def`: goal from the first two
responsibilities (or the generic fallback), backstory from the
template, delegation for the top two tiers. -/
def role_to_agent_def (role : Role) : AgentRole :=
  { role := role.title,
    goal :=
      if role.responsibilities.isEmpty then
        "Contribute to " ++ role.department.value ++ " success"
      else String.intercalate " " (role.responsibilities.take 2),
    backstory := generate_backstory role,
    department := role.department.value,
    level := role.level.value,
    can_delegate :=
      role.level.value == "executive" || role.level.value == "head",
    skills := role.skills }

/-- `params.get(key, fallback)` followed by f-string interpolation
(`str`). -/
def param_str (params : List (String × PyVal)) (key fallback : String) :
    String :=
  pyStr ((PyDict.get? params key).getD (PyVal.str fallback))

/-- The `any(r.title == t for r in roles)` guard used by every task
builder. -/
def has_title (roles : List Role) (t : String) : Bool :=
  roles.any (fun r => r.title == t)

/-- `WorkflowManager._create_marketing_tasks` as the `TaskDefinition`s
it submits, in order. -/
def marketing_task_defs (roles : List Role)
    (params : List (String × PyVal)) : List TaskDefinition :=
  let campaign_goal := param_str params "campaign_goal"
    "brand awareness campaign"
  (if has_title roles "Marketing Analyst" then
    [{ description :=
        "Analyze market trends and target audience for " ++ campaign_goal,
       agent_role := "Marketing Analyst",
       expected_output :=
        "Market analysis report with target audience insights" }]
   else [])
  ++ (if has_title roles "Content Marketing Expert" then
    [{ description := "Develop content strategy for " ++ campaign_goal,
       agent_role := "Content Marketing Expert",
       expected_output :=
        "Content strategy with key messages and channels" }]
   else [])
  ++ (if has_title roles "Head of Marketing" then
    [{ description :=
        "Review team inputs and create final campaign plan for "
          ++ campaign_goal,
       agent_role := "Head of Marketing",
       expected_output :=
        "Complete campaign plan with budget and timeline" }]
   else [])

/-- `WorkflowManager._create_software_tasks`. -/
def software_task_defs (roles : List Role)
    (params : List (String × PyVal)) : List TaskDefinition :=
  let feature := param_str params "feature" "new feature"
  (if has_title roles "Head of Software Development" then
    [{ description := "Design technical architecture for " ++ feature,
       agent_role := "Head of Software Development",
       expected_output := "Architecture design and implementation plan" }]
   else [])
  ++ (if has_title roles "Senior Software Developer" then
    [{ description := "Implement core functionality for " ++ feature,
       agent_role := "Senior Software Developer",
       expected_output := "Core implementation with tests" }]
   else [])
  ++ (if has_title roles "QA Analyst" then
    [{ description := "Create test plan and test " ++ feature,
       agent_role := "QA Analyst",
       expected_output := "Test results and quality report" }]
   else [])

/-- `WorkflowManager._create_operations_tasks`. -/
def operations_task_defs (roles : List Role)
    (params : List (String × PyVal)) : List TaskDefinition :=
  let process := param_str params "process" "business process"
  (if has_title roles "Operations Analyst" then
    [{ description :=
        "Analyze current " ++ process
          ++ " and identify improvement opportunities",
       agent_role := "Operations Analyst",
       expected_output :=
        "Process analysis with improvement recommendations" }]
   else [])
  ++ (if has_title roles "Head of Operations" then
    [{ description :=
        "Review analysis and create optimization plan for " ++ process,
       agent_role := "Head of Operations",
       expected_output :=
        "Process optimization plan with implementation steps" }]
   else [])

/-- `WorkflowManager._create_hr_tasks`.  (Both guards test titles —
`Recruitment Specialist`, `Head of Human Resources` — and the catalog's
HR head is titled `Head of HR`, so the second step never fires on the
catalog.) -/
def hr_task_defs (roles : List Role)
    (params : List (String × PyVal)) : List TaskDefinition :=
  let position := param_str params "position" "key position"
  (if has_title roles "Recruitment Specialist" then
    [{ description := "Develop recruitment strategy for " ++ position,
       agent_role := "Recruitment Specialist",
       expected_output :=
        "Recruitment plan with sourcing channels and timeline" }]
   else [])
  ++ (if has_title roles "Head of Human Resources" then
    [{ description :=
        "Review recruitment plan and finalize hiring strategy for "
          ++ position,
       agent_role := "Head of Human Resources",
       expected_output :=
        "Complete hiring strategy with budget and success metrics" }]
   else [])

/-- `WorkflowManager._create_commercial_tasks`. -/
def commercial_task_defs (roles : List Role)
    (params : List (String × PyVal)) : List TaskDefinition :=
  let product := param_str params "product" "product"
  (if has_title roles "Sales Analyst" then
    [{ description :=
        "Analyze sales potential and forecast for " ++ product,
       agent_role := "Sales Analyst",
       expected_output := "Sales forecast and market potential analysis" }]
   else [])
  ++ (if has_title roles "Head of Commercial" then
    [{ description :=
        "Develop sales strategy for " ++ product ++ " based on analysis",
       agent_role := "Head of Commercial",
       expected_output := "Complete sales strategy with targets and tactics" }]
   else [])

/-- `WorkflowManager._create_executive_tasks`. -/
def executive_task_defs (roles : List Role)
    (params : List (String × PyVal)) : List TaskDefinition :=
  let scenario := param_str params "scenario" "strategic initiative"
  (if has_title roles "CTO" then
    [{ description :=
        "Assess technical feasibility and requirements for " ++ scenario,
       agent_role := "CTO",
       expected_output := "Technical assessment with recommendations" }]
   else [])
  ++ (if has_title roles "CEO" then
    [{ description :=
        "Review inputs and make strategic decision on " ++ scenario,
       agent_role := "CEO",
       expected_output := "Strategic decision with implementation roadmap" }]
   else [])

/-- `WorkflowManager._create_department_tasks`, as the ordered
`TaskDefinition` sequence each branch submits. -/
def department_task_defs (department : Department) (roles : List Role)
    (params : List (String × PyVal)) : List TaskDefinition :=
  match department with
  | .MARKETING => marketing_task_defs roles params
  | .SOFTWARE_DEVELOPMENT => software_task_defs roles params
  | .OPERATIONS => operations_task_defs roles params
  | .HUMAN_RESOURCES => hr_task_defs roles params
  | .COMMERCIAL => commercial_task_defs roles params
  | .EXECUTIVE => executive_task_defs roles params

/-- `WorkflowManager._create_cross_functional_tasks`, as the
`TaskDefinition`s it submits. -/
def cross_functional_task_defs (roles : List Role)
    (params : List (String × PyVal)) : List TaskDefinition :=
  let initiative := param_str params "initiative" "company initiative"
  roles.map (fun role =>
    { description :=
        "Provide " ++ role.department.value
          ++ " perspective and recommendations for " ++ initiative,
      agent_role := role.title,
      expected_output :=
        role.department.value ++ " analysis and recommendations" })

/-- The agent-creation loop of `create_department_workflow`: one
`backend.create_agent` per role, in catalog order, the first raised
error propagating. -/
def create_agents_loop (B : BackendModel S A T) :
    List Role → S → Except PyExc (List A × S)
  | [], s => Except.ok ([], s)
  | role :: rest, s =>
    match B.create_agent s (role_to_agent_def role) with
    | Except.error e => Except.error e
    | Except.ok (agent, s') =>
      match create_agents_loop B rest s' with
      | Except.error e => Except.error e
      | Except.ok (agents, s'') => Except.ok (agent :: agents, s'')

/-- The task-submission part of the task builders: each guarded
`TaskDefinition` is pushed through `backend.create_task` in template
order, the first raised error propagating. -/
def create_tasks_loop (B : BackendModel S A T) :
    List TaskDefinition → S → Except PyExc (List T × S)
  | [], s => Except.ok ([], s)
  | td :: rest, s =>
    match B.create_task s td with
    | Except.error e => Except.error e
    | Except.ok (task, s') =>
      match create_tasks_loop B rest s' with
      | Except.error e => Except.error e
      | Except.ok (tasks, s'') => Except.ok (task :: tasks, s'')

/-- The workflow metadata set by `create_department_workflow`. -/
def department_metadata (department : Department)
    (scenario_params : List (String × PyVal)) : List (String × PyVal) :=
  [("department", PyVal.str department.value),
   ("scenario", PyVal.dict scenario_params)]

/-- `WorkflowManager.create_department_workflow`: derive the
department's roles, create agents and tasks (errors propagate), set the
workflow metadata, execute (parallel exactly when the backend supports
it), clear the Context Manager, and return `result.outputs`.  The
returned pair carries the raised-or-returned value together with the
Context Manager state at exit. -/
def create_department_workflow (B : BackendModel S A T)
    (department : Department) (scenario_params : List (String × PyVal))
    (s : S) (cm : ContextManager) :
    Except PyExc (List (String × PyVal)) × ContextManager :=
  let roles := OrganizationalChart.get_roles_by_department department
  match create_agents_loop B roles s with
  | Except.error e => (Except.error e, cm)
  | Except.ok (agents, s1) =>
    match create_tasks_loop B
        (department_task_defs department roles scenario_params) s1 with
    | Except.error e => (Except.error e, cm)
    | Except.ok (tasks, s2) =>
      let cm := cm.set_workflow_metadata
        (department_metadata department scenario_params)
      let process_type :=
        if B.supports_parallel_execution s2 then "parallel"
        else "sequential"
      match B.execute_workflow s2 agents tasks process_type with
      | Except.error e => (Except.error e, cm)
      | Except.ok (result, _s3) => (Except.ok result.outputs, cm.clear)

/-- The per-department loop of `create_cross_functional_workflow`: for
each department, the first `head`-level role (if any) yields an agent;
departments without a head are skipped. -/
def cross_heads_loop (B : BackendModel S A T) :
    List Department → S → Except PyExc (List A × List Role × S)
  | [], s => Except.ok ([], [], s)
  | department :: rest, s =>
    let dept_roles := OrganizationalChart.get_roles_by_department department
    match dept_roles.find? (fun r => r.level.value == "head") with
    | Option.none => cross_heads_loop B rest s
    | some head =>
      match B.create_agent s (role_to_agent_def head) with
      | Except.error e => Except.error e
      | Except.ok (agent, s') =>
        match cross_heads_loop B rest s' with
        | Except.error e => Except.error e
        | Except.ok (agents, roles, s'') =>
          Except.ok (agent :: agents, head :: roles, s'')

/-- The workflow metadata set by `create_cross_functional_workflow`. -/
def cross_functional_metadata (departments : List Department)
    (scenario_params : List (String × PyVal)) : List (String × PyVal) :=
  [("type", PyVal.str "cross_functional"),
   ("departments",
     PyVal.list (departments.map (fun d => PyVal.str d.value))),
   ("scenario", PyVal.dict scenario_params)]

/-- `WorkflowManager.create_cross_functional_workflow`: one agent per
department head, the shared generic task template, always sequential
execution, Context Manager cleared after a successful run. -/
def create_cross_functional_workflow (B : BackendModel S A T)
    (departments : List Department)
    (scenario_params : List (String × PyVal)) (s : S)
    (cm : ContextManager) :
    Except PyExc (List (String × PyVal)) × ContextManager :=
  match cross_heads_loop B departments s with
  | Except.error e => (Except.error e, cm)
  | Except.ok (agents, roles, s1) =>
    match create_tasks_loop B
        (cross_functional_task_defs roles scenario_params) s1 with
    | Except.error e => (Except.error e, cm)
    | Except.ok (tasks, s2) =>
      let cm := cm.set_workflow_metadata
        (cross_functional_metadata departments scenario_params)
      match B.execute_workflow s2 agents tasks "sequential" with
      | Except.error e => (Except.error e, cm)
      | Except.ok (result, _s3) => (Except.ok result.outputs, cm.clear)

end WorkflowManager

/-- The `ClaudeCodeBackend` as a `BackendModel`: none of its operations
raise. -/
def claudeBackendModel : BackendModel ClaudeState String ClaudeTask :=
  { create_agent := fun s ad => Except.ok (ClaudeCodeBackend.create_agent s ad),
    create_task := fun s td => Except.ok (ClaudeCodeBackend.create_task td, s),
    execute_workflow := fun s ags ts pt =>
      Except.ok (ClaudeCodeBackend.execute_workflow s ags ts pt, s),
    supports_parallel_execution := ClaudeCodeBackend.supports_parallel_execution }

/-- Backend-local state of a `CrewAIBackend` run: the instance state
plus the outcome the external `crew.kickoff()` call would produce. -/
structure CrewAIRun where
  backend : CrewAIState
  kick : Except PyExc PyVal

/-- The `CrewAIBackend` as a `BackendModel`: `create_task` raises on an
unknown role; `execute_workflow` never raises (the kickoff outcome is
folded into the `WorkflowResult`). -/
def crewaiBackendModel : BackendModel CrewAIRun CrewAgent CrewTask :=
  { create_agent := fun s ad =>
      let (agent, st') := CrewAIBackend.create_agent s.backend ad
      Except.ok (agent, { s with backend := st' }),
    create_task := fun s td =>
      (CrewAIBackend.create_task s.backend td).map (fun t => (t, s)),
    execute_workflow := fun s ags ts pt =>
      Except.ok (CrewAIBackend.execute_workflow ags ts pt s.kick, s),
    supports_parallel_execution := fun _ =>
      CrewAIBackend.supports_parallel_execution }

theorem PyDict.contains_eq_isSome_get? {K V : Type} [BEq K] [LawfulBEq K] (m : List (K × V)) (k : K) :
    contains m k = (get? m k).isSome := by
  induction m with
  | nil => rfl
  | cons p rest ih =>
    by_cases h : p.1 == k
    · simp [PyDict.contains, PyDict.get?, h]
    · simp [PyDict.contains, PyDict.get?, h, ih]

theorem PyDict.get?_mapReplace_self {K V : Type} [BEq K] [LawfulBEq K] {m : List (K × V)} {k : K} (v : V)
    (h : contains m k = true) :
    get? (m.map (fun p => if p.1 == k then (k, v) else p)) k = some v := by
  induction m with
  | nil => simp [PyDict.contains] at h
  | cons p rest ih =>
    by_cases hp : (p.1 == k) = true
    · simp [PyDict.get?, hp]
    · simp only [PyDict.contains, hp, Bool.false_or] at h
      simp only [List.map_cons, if_neg hp, PyDict.get?]
      exact ih h

theorem PyDict.get?_mapReplace_ne {K V : Type} [BEq K] [LawfulBEq K] (m : List (K × V)) {k k' : K} (v : V)
    (hne : k' ≠ k) :
    get? (m.map (fun p => if p.1 == k then (k, v) else p)) k' = get? m k' := by
  induction m with
  | nil => rfl
  | cons p rest ih =>
    by_cases hp : (p.1 == k) = true
    · have hpk : p.1 = k := by simpa using hp
      have hkk' : ¬((k == k') = true) := by simp; exact fun h => hne h.symm
      have hpk' : ¬((p.1 == k') = true) := by
        simp [hpk]; exact fun h => hne h.symm
      simp only [List.map_cons, if_pos hp, PyDict.get?]
      rw [if_neg hkk', if_neg hpk']
      exact ih
    · by_cases hp' : (p.1 == k') = true
      · simp [PyDict.get?, hp, hp']
      · simp only [List.map_cons, if_neg hp, PyDict.get?]
        rw [if_neg hp', if_neg hp']
        exact ih

theorem PyDict.get?_append_single_self {K V : Type} [BEq K] [LawfulBEq K] {m : List (K × V)} {k : K} (v : V)
    (h : contains m k = false) : get? (m ++ [(k, v)]) k = some v := by
  induction m with
  | nil => simp [PyDict.get?]
  | cons p rest ih =>
    simp only [PyDict.contains, Bool.or_eq_false_iff] at h
    simp [PyDict.get?, h.1, ih h.2]

theorem PyDict.get?_append_single_ne {K V : Type} [BEq K] [LawfulBEq K] (m : List (K × V)) {k k' : K} (v : V)
    (hne : k' ≠ k) : get? (m ++ [(k, v)]) k' = get? m k' := by
  induction m with
  | nil => simp [PyDict.get?]; exact fun h => absurd h.symm hne
  | cons p rest ih =>
    by_cases hp' : p.1 == k'
    · simp [PyDict.get?, hp']
    · simp [PyDict.get?, hp', ih]

theorem PyDict.get?_set_self {K V : Type} [BEq K] [LawfulBEq K] (m : List (K × V)) (k : K) (v : V) :
    get? (set m k v) k = some v := by
  unfold PyDict.set
  by_cases h : contains m k
  · simpa [h] using PyDict.get?_mapReplace_self v h
  · have h' : contains m k = false := by simpa using h
    simpa [h'] using PyDict.get?_append_single_self v h'

theorem PyDict.get?_set_ne {K V : Type} [BEq K] [LawfulBEq K] (m : List (K × V)) {k k' : K} (v : V)
    (hne : k' ≠ k) : get? (set m k v) k' = get? m k' := by
  unfold PyDict.set
  by_cases h : contains m k
  · simpa [h] using PyDict.get?_mapReplace_ne m v hne
  · have h' : contains m k = false := by simpa using h
    simpa [h'] using PyDict.get?_append_single_ne m v hne

theorem PyDict.contains_set {K V : Type} [BEq K] [LawfulBEq K] (m : List (K × V)) (k k' : K) (v : V) :
    contains (set m k v) k' = (k' == k || contains m k') := by
  by_cases hne : k' = k
  · subst hne
    simp [PyDict.contains_eq_isSome_get?, PyDict.get?_set_self]
  · simp only [PyDict.contains_eq_isSome_get?, PyDict.get?_set_ne m v hne]
    simp [hne]


theorem output_from_ne_workflow_metadata (a : String) :
    ("output_from_" ++ a) ≠ "workflow_metadata" := by
  intro h
  have h2 : ("output_from_" ++ a).data = "workflow_metadata".data :=
    congrArg String.data h
  rw [String.data_append] at h2
  simp [String.data] at h2


theorem sortParams_eq_of_perm {p p' : List (String × String)}
    (hperm : p.Perm p') (hnd : (p.map Prod.fst).Nodup) :
    sortParams p = sortParams p' := by
  haveI htot : IsTotal (String × String) (fun a b => a.1 ≤ b.1) :=
    ⟨fun a b => le_total a.1 b.1⟩
  haveI htrans : IsTrans (String × String) (fun a b => a.1 ≤ b.1) :=
    ⟨fun _ _ _ h1 h2 => le_trans h1 h2⟩
  have hnd' : (p'.map Prod.fst).Nodup := ((hperm.map Prod.fst).nodup_iff).mp hnd
  have hkey : Symmetric (fun a b : String × String => a.1 ≠ b.1) :=
    fun _ _ h => fun heq => h heq.symm
  have hpair : p.Pairwise (fun a b => a.1 ≠ b.1) := List.pairwise_map.mp hnd
  have hpair' : p'.Pairwise (fun a b => a.1 ≠ b.1) := List.pairwise_map.mp hnd'
  have hperm1 : List.Perm (sortParams p) p := List.perm_insertionSort _ p
  have hperm2 : List.Perm (sortParams p') p' := List.perm_insertionSort _ p'
  have hs1 : (sortParams p).Sorted (fun a b => a.1 ≤ b.1) :=
    List.sorted_insertionSort _ p
  have hs2 : (sortParams p').Sorted (fun a b => a.1 ≤ b.1) :=
    List.sorted_insertionSort _ p'
  have hne1 : (sortParams p).Pairwise (fun a b => a.1 ≠ b.1) :=
    (hperm1.pairwise_iff (fun h => Ne.symm h)).mpr hpair
  have hne2 : (sortParams p').Pairwise (fun a b => a.1 ≠ b.1) :=
    (hperm2.pairwise_iff (fun h => Ne.symm h)).mpr hpair'
  have hlt1 : (sortParams p).Sorted (fun a b => a.1 < b.1) :=
    (hs1.and hne1).imp (fun h => lt_of_le_of_ne h.1 h.2)
  have hlt2 : (sortParams p').Sorted (fun a b => a.1 < b.1) :=
    (hs2.and hne2).imp (fun h => lt_of_le_of_ne h.1 h.2)
  haveI : IsAntisymm (String × String) (fun a b => a.1 < b.1) :=
    ⟨fun _ _ h1 h2 => absurd h2 (lt_asymm h1)⟩
  exact List.eq_of_perm_of_sorted (hperm1.trans (hperm.trans hperm2.symm))
    hlt1 hlt2


theorem PyDict.contains_iff_mem_keys {K V : Type} [BEq K] [LawfulBEq K]
    (m : List (K × V)) (k : K) :
    PyDict.contains m k = true ↔ k ∈ m.map Prod.fst := by
  induction m with
  | nil => simp [PyDict.contains]
  | cons p rest ih =>
    simp only [PyDict.contains, List.map_cons, List.mem_cons,
      Bool.or_eq_true, beq_iff_eq, ih]
    constructor
    · rintro (h | h)
      · exact Or.inl h.symm
      · exact Or.inr h
    · rintro (h | h)
      · exact Or.inl h.symm
      · exact Or.inr h

theorem contains_foldl_set_iff (f : ClaudeTask → PyVal)
    (l : List ClaudeTask) (init : List (String × PyVal)) (k : String) :
    PyDict.contains
        (l.foldl (fun r t => PyDict.set r t.agent_role (f t)) init) k = true
      ↔ (PyDict.contains init k = true ∨ ∃ t ∈ l, t.agent_role = k) := by
  induction l generalizing init with
  | nil => simp
  | cons t rest ih =>
    simp only [List.foldl_cons]
    rw [ih]
    simp only [PyDict.contains_set, Bool.or_eq_true, beq_iff_eq,
      List.mem_cons]
    constructor
    · rintro ((h | h) | h)
      · exact Or.inr ⟨t, Or.inl rfl, h.symm⟩
      · exact Or.inl h
      · obtain ⟨u, hu, hk⟩ := h
        exact Or.inr ⟨u, Or.inr hu, hk⟩
    · rintro (h | ⟨u, (hu | hu), hk⟩)
      · exact Or.inl (Or.inr h)
      · subst hu
        exact Or.inl (Or.inl hk.symm)
      · exact Or.inr ⟨u, hu, hk⟩

theorem contains_execute_sequential_aux_iff (st : ClaudeState)
    (tasks : List ClaudeTask) (i : Nat)
    (touts : List (Option String × PyVal))
    (results : List (String × PyVal)) (k : String) :
    PyDict.contains
        (ClaudeCodeBackend.execute_sequential_aux st tasks i touts results)
        k = true
      ↔ (PyDict.contains results k = true ∨ ∃ t ∈ tasks, t.agent_role = k) := by
  induction tasks generalizing i touts results with
  | nil => simp [ClaudeCodeBackend.execute_sequential_aux]
  | cons t rest ih =>
    simp only [ClaudeCodeBackend.execute_sequential_aux]
    rw [ih]
    simp only [PyDict.contains_set, Bool.or_eq_true, beq_iff_eq,
      List.mem_cons]
    constructor
    · rintro ((h | h) | h)
      · exact Or.inr ⟨t, Or.inl rfl, h.symm⟩
      · exact Or.inl h
      · obtain ⟨u, hu, hk⟩ := h
        exact Or.inr ⟨u, Or.inr hu, hk⟩
    · rintro (h | ⟨u, (hu | hu), hk⟩)
      · exact Or.inl (Or.inr h)
      · subst hu
        exact Or.inl (Or.inl hk.symm)
      · exact Or.inr ⟨u, hu, hk⟩

theorem contains_execute_parallel_iff (st : ClaudeState)
    (tasks : List ClaudeTask) (k : String) :
    PyDict.contains (ClaudeCodeBackend.execute_parallel st tasks) k = true
      ↔ ∃ t ∈ tasks, t.depends_on = [] ∧ t.agent_role = k := by
  unfold ClaudeCodeBackend.execute_parallel
  rw [contains_foldl_set_iff]
  simp [PyDict.contains, List.mem_filter, List.isEmpty_iff, and_assoc]

theorem contains_execute_sequential_iff (st : ClaudeState)
    (tasks : List ClaudeTask) (k : String) :
    PyDict.contains (ClaudeCodeBackend.execute_sequential st tasks) k = true
      ↔ ∃ t ∈ tasks, t.agent_role = k := by
  unfold ClaudeCodeBackend.execute_sequential
  rw [contains_execute_sequential_aux_iff]
  simp [PyDict.contains]

theorem agent_role_mem_of_mem_guard {roles : List Role} {name : String}
    {mk : TaskDefinition} {td : TaskDefinition}
    (h : td ∈ (if WorkflowManager.has_title roles name then [mk] else []))
    (hrole : mk.agent_role = name) :
    td.agent_role ∈ roles.map Role.title := by
  by_cases hg : WorkflowManager.has_title roles name
  · simp only [hg, if_true, List.mem_singleton] at h
    subst h
    obtain ⟨r, hr, hrt⟩ := List.any_eq_true.mp hg
    rw [hrole, ← (beq_iff_eq.mp hrt)]
    exact List.mem_map_of_mem Role.title hr
  · simp [hg] at h

theorem department_task_defs_roles (department : Department)
    (roles : List Role) (params : List (String × PyVal))
    {td : TaskDefinition}
    (h : td ∈ WorkflowManager.department_task_defs department roles params) :
    td.agent_role ∈ roles.map Role.title := by
  cases department with
  | MARKETING =>
    simp only [WorkflowManager.department_task_defs,
      WorkflowManager.marketing_task_defs, List.mem_append] at h
    rcases h with (h | h) | h
    · exact agent_role_mem_of_mem_guard h rfl
    · exact agent_role_mem_of_mem_guard h rfl
    · exact agent_role_mem_of_mem_guard h rfl
  | SOFTWARE_DEVELOPMENT =>
    simp only [WorkflowManager.department_task_defs,
      WorkflowManager.software_task_defs, List.mem_append] at h
    rcases h with (h | h) | h
    · exact agent_role_mem_of_mem_guard h rfl
    · exact agent_role_mem_of_mem_guard h rfl
    · exact agent_role_mem_of_mem_guard h rfl
  | OPERATIONS =>
    simp only [WorkflowManager.department_task_defs,
      WorkflowManager.operations_task_defs, List.mem_append] at h
    rcases h with h | h
    · exact agent_role_mem_of_mem_guard h rfl
    · exact agent_role_mem_of_mem_guard h rfl
  | HUMAN_RESOURCES =>
    simp only [WorkflowManager.department_task_defs,
      WorkflowManager.hr_task_defs, List.mem_append] at h
    rcases h with h | h
    · exact agent_role_mem_of_mem_guard h rfl
    · exact agent_role_mem_of_mem_guard h rfl
  | COMMERCIAL =>
    simp only [WorkflowManager.department_task_defs,
      WorkflowManager.commercial_task_defs, List.mem_append] at h
    rcases h with h | h
    · exact agent_role_mem_of_mem_guard h rfl
    · exact agent_role_mem_of_mem_guard h rfl
  | EXECUTIVE =>
    simp only [WorkflowManager.department_task_defs,
      WorkflowManager.executive_task_defs, List.mem_append] at h
    rcases h with h | h
    · exact agent_role_mem_of_mem_guard h rfl
    · exact agent_role_mem_of_mem_guard h rfl

theorem claudeBackendModel_create_agent (s : ClaudeState) (ad : AgentRole) :
    claudeBackendModel.create_agent s ad
      = Except.ok (ClaudeCodeBackend.create_agent s ad) := rfl

theorem claudeBackendModel_create_task (s : ClaudeState)
    (td : TaskDefinition) :
    claudeBackendModel.create_task s td
      = Except.ok (ClaudeCodeBackend.create_task td, s) := rfl

theorem claudeBackendModel_execute_workflow (s : ClaudeState)
    (ags : List String) (ts : List ClaudeTask) (pt : String) :
    claudeBackendModel.execute_workflow s ags ts pt
      = Except.ok (ClaudeCodeBackend.execute_workflow s ags ts pt, s) := rfl

theorem claudeBackendModel_supports (s : ClaudeState) :
    claudeBackendModel.supports_parallel_execution s
      = ClaudeCodeBackend.supports_parallel_execution s := rfl

theorem claude_create_agents_loop_eq (roles : List Role) (s : ClaudeState) :
    WorkflowManager.create_agents_loop claudeBackendModel roles s
      = Except.ok
          (roles.map (fun r => (WorkflowManager.role_to_agent_def r).role),
           roles.foldl
             (fun st r =>
               (ClaudeCodeBackend.create_agent st
                 (WorkflowManager.role_to_agent_def r)).2) s) := by
  induction roles generalizing s with
  | nil => rfl
  | cons r rest ih =>
    simp only [WorkflowManager.create_agents_loop,
      claudeBackendModel_create_agent, ih, List.map_cons, List.foldl_cons]
    rfl

theorem claude_create_tasks_loop_eq (tds : List TaskDefinition)
    (s : ClaudeState) :
    WorkflowManager.create_tasks_loop claudeBackendModel tds s
      = Except.ok (tds.map ClaudeCodeBackend.create_task, s) := by
  induction tds generalizing s with
  | nil => rfl
  | cons td rest ih =>
    simp only [WorkflowManager.create_tasks_loop,
      claudeBackendModel_create_task, ih, List.map_cons]

theorem claude_outputs_key_in_tasks (st : ClaudeState) (ags : List String)
    (ts : List ClaudeTask) (pt : String) {k : String}
    (h : PyDict.contains
      (ClaudeCodeBackend.execute_workflow st ags ts pt).outputs k = true) :
    ∃ t ∈ ts, t.agent_role = k := by
  dsimp only [ClaudeCodeBackend.execute_workflow] at h
  split at h
  · obtain ⟨t, ht, _, hrole⟩ := (contains_execute_parallel_iff st ts k).mp h
    exact ⟨t, ht, hrole⟩
  · exact (contains_execute_sequential_iff st ts k).mp h

theorem claude_create_department_workflow_eq (department : Department)
    (params : List (String × PyVal)) (s : ClaudeState)
    (cm : ContextManager) :
    WorkflowManager.create_department_workflow claudeBackendModel
        department params s cm
      = (Except.ok
          (ClaudeCodeBackend.execute_workflow
            ((OrganizationalChart.get_roles_by_department department).foldl
              (fun st r =>
                (ClaudeCodeBackend.create_agent st
                  (WorkflowManager.role_to_agent_def r)).2) s)
            ((OrganizationalChart.get_roles_by_department department).map
              (fun r => (WorkflowManager.role_to_agent_def r).role))
            ((WorkflowManager.department_task_defs department
                (OrganizationalChart.get_roles_by_department department)
                params).map ClaudeCodeBackend.create_task)
            (if ClaudeCodeBackend.supports_parallel_execution
                ((OrganizationalChart.get_roles_by_department department).foldl
                  (fun st r =>
                    (ClaudeCodeBackend.create_agent st
                      (WorkflowManager.role_to_agent_def r)).2) s)
             then "parallel" else "sequential")).outputs,
         (⟨[], [], []⟩ : ContextManager)) := by
  simp only [WorkflowManager.create_department_workflow,
    claude_create_agents_loop_eq, claude_create_tasks_loop_eq,
    claudeBackendModel_execute_workflow, claudeBackendModel_supports,
    ContextManager.clear]

/-- C9: `build_context_for_task` leaves the Context Manager's state
unchanged — the context store, the result store and the workflow
metadata after the call equal their values before it, and the returned
map is the pure combination function of the state.  (In the Python
source this holds because the method starts from
`self.get_context(task_id).copy()` and never assigns to any `self`
attribute.) -/
theorem claim_C9 (cm : ContextManager) (task_id : String)
    (dependencies : List String)
    (additional_context : List (String × PyVal)) :
    (cm.build_context_for_task_run task_id dependencies
        additional_context).2.context_store = cm.context_store
  ∧ (cm.build_context_for_task_run task_id dependencies
        additional_context).2.task_results = cm.task_results
  ∧ (cm.build_context_for_task_run task_id dependencies
        additional_context).2.workflow_metadata = cm.workflow_metadata
  ∧ (cm.build_context_for_task_run task_id dependencies
        additional_context).1
      = cm.build_context_for_task task_id dependencies additional_context :=
  ⟨rfl, rfl, rfl, rfl⟩

/-- C10: `CrewAIBackend.execute_workflow` never propagates an exception
raised during workflow execution (its model is a total function of the
kickoff outcome): a raising kickoff yields a returned `WorkflowResult`
with `success = False`, the error message under the outputs key
`error`, and the exception's type name in metadata under
`error_type`. -/
theorem claim_C10 (agents : List CrewAgent) (tasks : List CrewTask)
    (process_type : String) (e : PyExc) :
    (CrewAIBackend.execute_workflow agents tasks process_type
        (Except.error e)).success = false
  ∧ (CrewAIBackend.execute_workflow agents tasks process_type
        (Except.error e)).outputs = [("error", PyVal.str e.msg)]
  ∧ PyDict.get?
      (CrewAIBackend.execute_workflow agents tasks process_type
        (Except.error e)).metadata "error_type"
      = some (PyVal.str e.type_name) :=
  ⟨rfl, rfl, rfl⟩

/-- C7: the generated cache key is invariant under the insertion order
of the params map — for any two association lists that are permutations
of each other with duplicate-free keys (i.e. the same logical mapping),
`_generate_cache_key` produces the same key, whatever the hash
function. -/
theorem claim_C7 (md5_hex : String → String) (department backend : String)
    (p p' : List (String × String)) (hperm : List.Perm p p')
    (hnd : (p.map Prod.fst).Nodup) :
    generate_cache_key md5_hex department backend p
      = generate_cache_key md5_hex department backend p' := by
  unfold generate_cache_key keyString dumpsParams
  rw [sortParams_eq_of_perm hperm hnd]

/-- Witness for C7 at a concrete two-key params map inserted in both
orders. -/
theorem claim_C7_witness :
    List.Perm [("a", "1"), ("b", "2")] [("b", "2"), ("a", "1")]
  ∧ ([("a", "1"), ("b", "2")].map
      (Prod.fst (α := String) (β := String))).Nodup
  ∧ generate_cache_key (fun s => s) "marketing" "crewai"
        [("a", "1"), ("b", "2")]
      = generate_cache_key (fun s => s) "marketing" "crewai"
        [("b", "2"), ("a", "1")] :=
  ⟨by decide, by decide,
   claim_C7 (fun s => s) "marketing" "crewai" _ _ (by decide) (by decide)⟩

/-- C4 (amended): `ClaudeCodeBackend.execute_workflow` reports the
requested `process_type` in the result metadata unconditionally — also
when the requested parallel mode was downgraded to sequential
execution. -/
theorem claim_C4_amended (st : ClaudeState) (agents : List String)
    (tasks : List ClaudeTask) (process_type : String) :
    PyDict.get?
        (ClaudeCodeBackend.execute_workflow st agents tasks
          process_type).metadata "process"
      = some (PyVal.str process_type) := rfl

/-- Counterexample to C4 as stated: with `parallel_execution: False` a
requested parallel run is downgraded — the outputs are exactly those of
the sequential path (including the dependent task `r2`, which the
parallel path would drop) — yet the metadata still reports
`"parallel"`, the requested rather than the actual mode. -/
theorem claim_C4_counterexample :
    let st := ClaudeCodeBackend.initialize_backend
      [("parallel_execution", PyVal.bool false)]
    let tasks : List ClaudeTask :=
      [⟨"d1", "r1", "o1", [], [], some "t1"⟩,
       ⟨"d2", "r2", "o2", [], ["t1"], some "t2"⟩]
    (ClaudeCodeBackend.execute_workflow st [] tasks "parallel").outputs
        = ClaudeCodeBackend.execute_sequential st tasks
  ∧ PyDict.contains
        (ClaudeCodeBackend.execute_workflow st [] tasks "parallel").outputs
        "r2" = true
  ∧ PyDict.contains
        (ClaudeCodeBackend.execute_parallel st tasks) "r2" = false
  ∧ PyDict.get?
        (ClaudeCodeBackend.execute_workflow st [] tasks "parallel").metadata
        "process" = some (PyVal.str "parallel") := by
  exact ⟨rfl, rfl, rfl, rfl⟩

/-- C5 (amended): the CrewAI backend's `create_task` raises a
`ValueError` naming the role whenever no agent was previously created
for the task's role, and succeeds when one was; the Claude Code
backend's `create_task`, by contrast, always succeeds without consulting
the created agents. -/
theorem claim_C5_amended (st : CrewAIState) (td : TaskDefinition) :
    (PyDict.get? st.agents_cache td.agent_role = Option.none →
      CrewAIBackend.create_task st td
        = Except.error
            ⟨"ValueError",
             "Agent \x27" ++ td.agent_role
               ++ "\x27 not found. Create agent before creating tasks."⟩)
  ∧ (∀ ag, PyDict.get? st.agents_cache td.agent_role = some ag →
      CrewAIBackend.create_task st td
        = Except.ok ⟨td.description, ag, td.expected_output⟩)
  ∧ (∀ td2 : TaskDefinition,
      ClaudeCodeBackend.create_task td2
        = ⟨td2.description, td2.agent_role, td2.expected_output,
           td2.context, td2.depends_on, td2.task_id⟩) := by
  refine ⟨?_, ?_, ?_⟩
  · intro h
    unfold CrewAIBackend.create_task
    rw [h]
  · intro ag h
    unfold CrewAIBackend.create_task
    rw [h]
  · intro td2
    rfl

/-- Witness for C5 (amended): on a fresh CrewAI backend `create_task`
fails for an unknown role, and succeeds for a role whose agent was
created first. -/
theorem claim_C5_witness :
    (CrewAIBackend.create_task ⟨[], []⟩
        ⟨"d", "Ghost Role", "o", [], [], Option.none⟩
      = Except.error
          ⟨"ValueError",
           "Agent \x27Ghost Role\x27 not found. Create agent before creating tasks."⟩)
  ∧ (CrewAIBackend.create_task
        (CrewAIBackend.create_agent ⟨[], []⟩
          ⟨"CEO", "g", "b", "executive", "executive", true, [],
           Option.none⟩).2
        ⟨"d", "CEO", "o", [], [], Option.none⟩
      = Except.ok
          ⟨"d",
           (CrewAIBackend.create_agent ⟨[], []⟩
             ⟨"CEO", "g", "b", "executive", "executive", true, [],
              Option.none⟩).1,
           "o"⟩) :=
  ⟨(claim_C5_amended ⟨[], []⟩ ⟨"d", "Ghost Role", "o", [], [],
      Option.none⟩).1 rfl,
   (claim_C5_amended _ ⟨"d", "CEO", "o", [], [], Option.none⟩).2.1 _ rfl⟩

/-- Counterexample to C5 as stated: the Claude Code backend has created
no agent at all (its `_agent_definitions` cache is empty), yet
`create_task` for an arbitrary unknown role succeeds and returns a task
handle instead of failing with an AgentNotFound-style error. -/
theorem claim_C5_counterexample :
    ClaudeCodeBackend.init.agent_definitions = []
  ∧ ClaudeCodeBackend.create_task
        ⟨"d", "Ghost Role", "o", [], [], Option.none⟩
      = ⟨"d", "Ghost Role", "o", [], [], Option.none⟩
  ∧ claudeBackendModel.create_task ClaudeCodeBackend.init
        ⟨"d", "Ghost Role", "o", [], [], Option.none⟩
      = Except.ok
          (⟨"d", "Ghost Role", "o", [], [], Option.none⟩,
           ClaudeCodeBackend.init) :=
  ⟨rfl, rfl, rfl⟩

/-- C6 (amended): `build_context_for_task(B, [A], {})` binds
`output_from_A` to exactly the stored result of `A` whenever one has
been stored, and omits that key (without raising or blocking) whenever
no result for `A` is stored **and** `B`'s own declared context does not
itself contain a key literally named `output_from_A`. -/
theorem claim_C6_amended (cm : ContextManager) (b a : String) :
    (∀ v, PyDict.get? cm.task_results a = some v →
      PyDict.get? (cm.build_context_for_task b [a] [])
          ("output_from_" ++ a) = some v)
  ∧ (PyDict.get? cm.task_results a = Option.none →
     PyDict.get? (cm.get_context b) ("output_from_" ++ a) = Option.none →
     PyDict.get? (cm.build_context_for_task b [a] [])
         ("output_from_" ++ a) = Option.none) := by
  constructor
  · intro v hv
    have hcont : PyDict.contains cm.task_results a = true := by
      rw [PyDict.contains_eq_isSome_get?, hv]
      rfl
    simp only [ContextManager.build_context_for_task, List.foldl_cons,
      List.foldl_nil, hcont, if_true, List.isEmpty_nil]
    by_cases hm : cm.workflow_metadata.isEmpty
    · simp only [hm, if_true]
      rw [PyDict.get?_set_self, hv]
      rfl
    · simp only [hm, Bool.false_eq_true, if_false]
      rw [PyDict.get?_set_ne _ _ (output_from_ne_workflow_metadata a),
        PyDict.get?_set_self, hv]
      rfl
  · intro ht hctx
    have hcont : PyDict.contains cm.task_results a = false := by
      rw [PyDict.contains_eq_isSome_get?, ht]
      rfl
    simp only [ContextManager.build_context_for_task, List.foldl_cons,
      List.foldl_nil, hcont, Bool.false_eq_true, if_false, List.isEmpty_nil,
      if_true]
    by_cases hm : cm.workflow_metadata.isEmpty
    · simp only [hm, if_true]
      exact hctx
    · simp only [hm, Bool.false_eq_true, if_false]
      rw [PyDict.get?_set_ne _ _ (output_from_ne_workflow_metadata a)]
      exact hctx

/-- Witness for C6 (amended): with a stored result for `A` the key is
present with that result; on a fresh manager the key is absent. -/
theorem claim_C6_witness :
    PyDict.get?
        (ContextManager.build_context_for_task
          ⟨[], [("A", PyVal.str "res")], []⟩ "B" ["A"] []) "output_from_A"
      = some (PyVal.str "res")
  ∧ PyDict.get?
        (ContextManager.build_context_for_task ⟨[], [], []⟩ "B" ["A"] [])
        "output_from_A"
      = Option.none :=
  ⟨(claim_C6_amended ⟨[], [("A", PyVal.str "res")], []⟩ "B" "A").1
      (PyVal.str "res") rfl,
   (claim_C6_amended ⟨[], [], []⟩ "B" "A").2 rfl rfl⟩

/-- Counterexample to C6 as stated: when task `B`'s own declared context
already contains a key named `output_from_A`, the built context contains
`output_from_A` even though no result for `A` has been stored — the key
is not omitted. -/
theorem claim_C6_counterexample :
    PyDict.get?
        (ContextManager.task_results
          ⟨[("B", [("output_from_A", PyVal.str "poison")])], [], []⟩) "A"
      = Option.none
  ∧ PyDict.get?
        (ContextManager.build_context_for_task
          ⟨[("B", [("output_from_A", PyVal.str "poison")])], [], []⟩
          "B" ["A"] [])
        "output_from_A"
      = some (PyVal.str "poison") :=
  ⟨rfl, rfl⟩

/-- C3 (amended): in the Claude Code backend's parallel path exactly the
tasks with an empty dependency list are executed — only zero-dependency
tasks ever enter the parallel batch, and a task with a non-empty
dependency list is dropped from execution there — while the sequential
path executes every task (it is the only path that injects a stored
dependency output into a dependent task's context). -/
theorem claim_C3_amended (st : ClaudeState) (tasks : List ClaudeTask)
    (k : String) :
    (PyDict.contains (ClaudeCodeBackend.execute_parallel st tasks) k = true
       ↔ ∃ t ∈ tasks, t.depends_on = [] ∧ t.agent_role = k)
  ∧ (PyDict.contains (ClaudeCodeBackend.execute_sequential st tasks) k = true
       ↔ ∃ t ∈ tasks, t.agent_role = k) :=
  ⟨contains_execute_parallel_iff st tasks k,
   contains_execute_sequential_iff st tasks k⟩

/-- Counterexample to C3 as stated: in a workflow executed in parallel
mode, the task `r2`, whose dependency set is non-empty, is silently
dropped — it is not submitted after its dependency completes, it is
never executed at all. -/
theorem claim_C3_counterexample :
    let tasks : List ClaudeTask :=
      [⟨"d1", "r1", "o1", [], [], some "t1"⟩,
       ⟨"d2", "r2", "o2", [], ["t1"], some "t2"⟩]
    (ClaudeCodeBackend.execute_workflow ClaudeCodeBackend.init [] tasks
        "parallel").outputs.map Prod.fst = ["r1"]
  ∧ PyDict.contains
        (ClaudeCodeBackend.execute_workflow ClaudeCodeBackend.init [] tasks
          "parallel").outputs "r2" = false := by
  exact ⟨rfl, rfl⟩

/-- C2 (amended): a `get` of an entry written by `set` is judged fresh
or expired against the TTL configured on the reading instance
(`self.ttl_seconds` at read time) — not against the TTL recorded in the
entry at write time; in particular, reading through an instance whose
configured TTL differs from the writer's changes when the entry
expires. -/
theorem claim_C2_amended (md5_hex : String → String)
    (cW cR : WorkflowCache) (files : List (String × CacheFile))
    (department backend : String) (params : List (String × String))
    (result : PyVal) (t_w t_r : Int) (hW : cW.enabled = true)
    (hR : cR.enabled = true) (hdir : cR.cache_dir = cW.cache_dir) :
    (WorkflowCache.get md5_hex cR
        (WorkflowCache.set md5_hex cW files department backend params
          result t_w)
        department backend params t_r).1
      = if t_r - t_w < cR.ttl_seconds then some result else Option.none := by
  have hpath : cR.get_cache_file_path
        (generate_cache_key md5_hex department backend params)
      = cW.get_cache_file_path
        (generate_cache_key md5_hex department backend params) := by
    unfold WorkflowCache.get_cache_file_path
    rw [hdir]
  unfold WorkflowCache.get WorkflowCache.set WorkflowCache.is_cache_valid
  simp only [hW, hR, Bool.not_true, Bool.false_eq_true, if_false, hpath,
    PyDict.get?_set_self]
  by_cases hv : t_r - t_w < cR.ttl_seconds
  · simp [hv]
  · simp [hv]

/-- Witness for C2 (amended) at a concrete write/read pair: written with
configured TTL 10 at time 0, read through an instance with configured
TTL 1 at time 5. -/
theorem claim_C2_witness :
    (WorkflowCache.get (fun s => s) ⟨".cache/workflows", 1, true⟩
        (WorkflowCache.set (fun s => s) ⟨".cache/workflows", 10, true⟩ []
          "marketing" "crewai" [] (PyVal.str "res") 0)
        "marketing" "crewai" [] 5).1
      = if (5 : Int) - 0 < (1 : Int) then some (PyVal.str "res")
        else Option.none :=
  claim_C2_amended (fun s => s) ⟨".cache/workflows", 10, true⟩
    ⟨".cache/workflows", 1, true⟩ [] "marketing" "crewai" []
    (PyVal.str "res") 0 5 rfl rfl rfl

/-- Counterexample to C2 as stated: the persisted entry records the
write-time TTL 10 and only 5 seconds have elapsed — under the claim the
entry is still fresh — yet a read through an instance whose configured
TTL was changed to 1 misses: the expiry judgment follows the read-time
configuration, so changing the configured TTL does change when the
entry expires. -/
theorem claim_C2_counterexample :
    let files := WorkflowCache.set (fun s => s)
      ⟨".cache/workflows", 10, true⟩ [] "marketing" "crewai" []
      (PyVal.str "res") 0
    ((PyDict.get? files
        (WorkflowCache.get_cache_file_path ⟨".cache/workflows", 10, true⟩
          (generate_cache_key (fun s => s) "marketing" "crewai"
            []))).bind (fun f => f.data)).map (fun d => d.ttl_seconds)
      = some 10
  ∧ ((5 : Int) - 0 < (10 : Int))
  ∧ (WorkflowCache.get (fun s => s) ⟨".cache/workflows", 1, true⟩ files
        "marketing" "crewai" [] 5).1 = Option.none := by
  exact ⟨rfl, by decide, rfl⟩

/-- C1 (amended): for every backend, a scope workflow run
(`create_department_workflow` or `create_cross_functional_workflow`)
that returns normally leaves the Context Manager's context store, result
store and workflow metadata all empty; but a run on which agent
creation, task creation or `execute_workflow` raises propagates the
error *without* clearing — the Context Manager is left either untouched
(creation failures) or with the workflow metadata that was set just
before execution (execution failures). -/
theorem claim_C1_amended {S A T : Type} (B : BackendModel S A T)
    (department : Department) (departments : List Department)
    (params : List (String × PyVal)) (s : S) (cm : ContextManager) :
    (∀ r cm',
      WorkflowManager.create_department_workflow B department params s cm
          = (Except.ok r, cm') →
        cm'.context_store = [] ∧ cm'.task_results = []
          ∧ cm'.workflow_metadata = [])
  ∧ (∀ e cm',
      WorkflowManager.create_department_workflow B department params s cm
          = (Except.error e, cm') →
        cm' = cm ∨ cm' = cm.set_workflow_metadata
          (WorkflowManager.department_metadata department params))
  ∧ (∀ r cm',
      WorkflowManager.create_cross_functional_workflow B departments params
          s cm = (Except.ok r, cm') →
        cm'.context_store = [] ∧ cm'.task_results = []
          ∧ cm'.workflow_metadata = [])
  ∧ (∀ e cm',
      WorkflowManager.create_cross_functional_workflow B departments params
          s cm = (Except.error e, cm') →
        cm' = cm ∨ cm' = cm.set_workflow_metadata
          (WorkflowManager.cross_functional_metadata departments params)) := by
  refine ⟨?_, ?_, ?_, ?_⟩
  · intro r cm' h
    unfold WorkflowManager.create_department_workflow at h
    dsimp only at h
    split at h
    · exact absurd (congrArg Prod.fst h) (by simp)
    · split at h
      · exact absurd (congrArg Prod.fst h) (by simp)
      · split at h
        · exact absurd (congrArg Prod.fst h) (by simp)
        · have h2 := congrArg Prod.snd h
          simp only [ContextManager.clear] at h2
          rw [← h2]
          exact ⟨rfl, rfl, rfl⟩
  · intro e cm' h
    unfold WorkflowManager.create_department_workflow at h
    dsimp only at h
    split at h
    · exact Or.inl (congrArg Prod.snd h).symm
    · split at h
      · exact Or.inl (congrArg Prod.snd h).symm
      · split at h
        · exact Or.inr (congrArg Prod.snd h).symm
        · exact absurd (congrArg Prod.fst h) (by simp)
  · intro r cm' h
    unfold WorkflowManager.create_cross_functional_workflow at h
    dsimp only at h
    split at h
    · exact absurd (congrArg Prod.fst h) (by simp)
    · split at h
      · exact absurd (congrArg Prod.fst h) (by simp)
      · split at h
        · exact absurd (congrArg Prod.fst h) (by simp)
        · have h2 := congrArg Prod.snd h
          simp only [ContextManager.clear] at h2
          rw [← h2]
          exact ⟨rfl, rfl, rfl⟩
  · intro e cm' h
    unfold WorkflowManager.create_cross_functional_workflow at h
    dsimp only at h
    split at h
    · exact Or.inl (congrArg Prod.snd h).symm
    · split at h
      · exact Or.inl (congrArg Prod.snd h).symm
      · split at h
        · exact Or.inr (congrArg Prod.snd h).symm
        · exact absurd (congrArg Prod.fst h) (by simp)

/-- Witness for C1 (amended): a successful run leaves all three stores
empty, and a run whose `execute_workflow` raises leaves the Context
Manager in one of the two non-cleared shapes. -/
theorem claim_C1_witness :
    ((WorkflowManager.create_department_workflow
        { claudeBackendModel with
            execute_workflow := fun s _ _ _ =>
              Except.ok (⟨true, [], []⟩, s) }
        Department.MARKETING [] ClaudeCodeBackend.init
        ContextManager.init).2.context_store = []
      ∧ (WorkflowManager.create_department_workflow
          { claudeBackendModel with
              execute_workflow := fun s _ _ _ =>
                Except.ok (⟨true, [], []⟩, s) }
          Department.MARKETING [] ClaudeCodeBackend.init
          ContextManager.init).2.task_results = []
      ∧ (WorkflowManager.create_department_workflow
          { claudeBackendModel with
              execute_workflow := fun s _ _ _ =>
                Except.ok (⟨true, [], []⟩, s) }
          Department.MARKETING [] ClaudeCodeBackend.init
          ContextManager.init).2.workflow_metadata = [])
  ∧ ((WorkflowManager.create_department_workflow
        { claudeBackendModel with
            execute_workflow := fun _ _ _ _ =>
              Except.error ⟨"WorkflowExecutionError", "boom"⟩ }
        Department.MARKETING [] ClaudeCodeBackend.init
        ContextManager.init).2 = ContextManager.init
      ∨ (WorkflowManager.create_department_workflow
          { claudeBackendModel with
              execute_workflow := fun _ _ _ _ =>
                Except.error ⟨"WorkflowExecutionError", "boom"⟩ }
          Department.MARKETING [] ClaudeCodeBackend.init
          ContextManager.init).2
        = ContextManager.init.set_workflow_metadata
            (WorkflowManager.department_metadata Department.MARKETING [])) :=
  ⟨(claim_C1_amended
      { claudeBackendModel with
          execute_workflow := fun s _ _ _ => Except.ok (⟨true, [], []⟩, s) }
      Department.MARKETING [] [] ClaudeCodeBackend.init
      ContextManager.init).1 [] _ rfl,
   (claim_C1_amended
      { claudeBackendModel with
          execute_workflow := fun _ _ _ _ =>
            Except.error ⟨"WorkflowExecutionError", "boom"⟩ }
      Department.MARKETING [] [] ClaudeCodeBackend.init
      ContextManager.init).2.1 ⟨"WorkflowExecutionError", "boom"⟩ _ rfl⟩

/-- Counterexample to C1 as stated: when `execute_workflow` raises, the
error propagates out of `create_department_workflow` and the Context
Manager's workflow metadata — set just before execution — is *not*
empty on that exit path. -/
theorem claim_C1_counterexample :
    (WorkflowManager.create_department_workflow
        { claudeBackendModel with
            execute_workflow := fun _ _ _ _ =>
              Except.error ⟨"WorkflowExecutionError", "boom"⟩ }
        Department.MARKETING [] ClaudeCodeBackend.init
        ContextManager.init).1
      = Except.error ⟨"WorkflowExecutionError", "boom"⟩
  ∧ (WorkflowManager.create_department_workflow
        { claudeBackendModel with
            execute_workflow := fun _ _ _ _ =>
              Except.error ⟨"WorkflowExecutionError", "boom"⟩ }
        Department.MARKETING [] ClaudeCodeBackend.init
        ContextManager.init).2.workflow_metadata
      = WorkflowManager.department_metadata Department.MARKETING []
  ∧ (WorkflowManager.department_metadata
        Department.MARKETING []).isEmpty = false :=
  ⟨rfl, rfl, rfl⟩

/-- C8 (amended): for the Claude Code backend, the key set of the
outputs map returned by `create_department_workflow` is a subset of the
titles of the roles actually present for the department; the CrewAI
backend, by contrast, keys its single output under the backend-invented
label `result` (see the counterexample). -/
theorem claim_C8_amended (s : ClaudeState) (department : Department)
    (params : List (String × PyVal)) (cm : ContextManager) (k : String)
    (hk : k ∈ ((WorkflowManager.create_department_workflow
        claudeBackendModel department params s
        cm).1.toOption.getD []).map Prod.fst) :
    k ∈ (OrganizationalChart.get_roles_by_department department).map
      Role.title := by
  rw [claude_create_department_workflow_eq] at hk
  simp only [Except.toOption, Option.getD] at hk
  have hc := (PyDict.contains_iff_mem_keys _ k).mpr hk
  obtain ⟨t, ht, hrole⟩ := claude_outputs_key_in_tasks _ _ _ _ hc
  obtain ⟨td, htd, hmap⟩ := List.mem_map.mp ht
  rw [← hrole, ← hmap]
  exact department_task_defs_roles department _ params htd

/-- Witness for C8 (amended): a Claude Code operations run yields the
key `Operations Analyst`, which is a participant title. -/
theorem claim_C8_witness :
    "Operations Analyst"
      ∈ (OrganizationalChart.get_roles_by_department
          Department.OPERATIONS).map Role.title :=
  claim_C8_amended ClaudeCodeBackend.init Department.OPERATIONS []
    ContextManager.init "Operations Analyst" (by decide)

/-- Counterexample to C8 as stated: a marketing run through the CrewAI
backend returns its outputs under the single backend-invented key
`result`, which is not a participant role identity of the marketing
scope. -/
theorem claim_C8_counterexample :
    ((WorkflowManager.create_department_workflow crewaiBackendModel
        Department.MARKETING []
        ⟨CrewAIBackend.init, Except.ok (PyVal.str "final")⟩
        ContextManager.init).1.toOption.getD []).map Prod.fst = ["result"]
  ∧ ¬ ("result" ∈ (OrganizationalChart.get_roles_by_department
        Department.MARKETING).map Role.title) := by
  exact ⟨rfl, by decide⟩

end AICompany
